import Mathlib

/-!
Shallow embedding of the projection/simulation engine of
`retirement_app.py` (a Streamlit retirement-planning script).

Two simulation loops are modelled, with exact rational arithmetic in
place of Python floats:

* the living-annuity ("open-horizon") loop of tab 2, which each year
  withdraws a fixed percentage of the current balance
  (`withdrawal = balance * withdrawal_rate`);
* the retirement-calculator loop of tab 1, which each year withdraws the
  fixed amount `annual_withdrawal = future_savings * withdrawal_rate`.

Both loops run `while balance > 0 and year_count < 50`, and per
iteration record the withdrawal (tab 2 only), update
`balance = (balance - withdrawal) * (1 + return_rate)`, and record the
age `retirement_age + year_count` and the updated balance; the
`year_count < 50` part of the guard is modelled by a fuel argument that
starts at `50 - year_count` (hence at 50 at the top level, where
`year_count = 0`).

After the loop, the script renders a longevity verdict: `[DEPLETED]`
with age `retirement_age + year_count` when the final `balance <= 0`,
else `[SUSTAINABLE]`; this is modelled by the `Longevity` type.
-/

/-- Result of the living-annuity simulation loop (tab 2, lines 308-320):
the three recorded series (`withdrawal_amounts`, `depletion_years`,
`balances`), the final value of the `balance` accumulator, and the final
`year_count`. -/
structure LAResult where
  withdrawal_amounts : List ℚ
  depletion_years : List ℤ
  balances : List ℚ
  balance : ℚ
  year_count : ℕ
deriving DecidableEq

/-- Result of the retirement-calculator simulation loop (tab 1, lines
507-517): the recorded `depletion_years` and `balances` series, the
final `balance`, and the final `year_count`.  (This loop records no
per-year withdrawal list; the report layer later uses
`[annual_withdrawal] * year_count`, see `rc_withdrawals`.) -/
structure RCResult where
  depletion_years : List ℤ
  balances : List ℚ
  balance : ℚ
  year_count : ℕ
deriving DecidableEq

/-- The living-annuity loop of tab 2 (lines 314-320):

    while balance > 0 and year_count < 50:
        withdrawal = balance * withdrawal_rate
        withdrawal_amounts.append(withdrawal)
        balance = (balance - withdrawal) * (1 + la_return)
        depletion_years.append(la_retirement_age + year_count)
        balances.append(balance)
        year_count += 1

`fuel` stands for `50 - year_count`, so the guard `year_count < 50` is
`fuel > 0`. -/
def laLoop (withdrawal_rate la_return : ℚ) (la_retirement_age : ℤ) :
    ℕ → ℚ → ℕ → LAResult
  | 0, balance, year_count => ⟨[], [], [], balance, year_count⟩
  | fuel + 1, balance, year_count =>
    if 0 < balance then
      let withdrawal := balance * withdrawal_rate
      let balance' := (balance - withdrawal) * (1 + la_return)
      let rest := laLoop withdrawal_rate la_return la_retirement_age fuel balance'
        (year_count + 1)
      ⟨withdrawal :: rest.withdrawal_amounts,
       (la_retirement_age + (year_count : ℤ)) :: rest.depletion_years,
       balance' :: rest.balances,
       rest.balance, rest.year_count⟩
    else ⟨[], [], [], balance, year_count⟩

/-- Top level of the tab-2 simulation: `balance = investment`,
`year_count = 0`, empty series, then the loop with the 50-year cap. -/
def laSimulate (investment withdrawal_rate la_return : ℚ)
    (la_retirement_age : ℤ) : LAResult :=
  laLoop withdrawal_rate la_return la_retirement_age 50 investment 0

/-- The retirement-calculator loop of tab 1 (lines 512-517):

    while balance > 0 and year_count < 50:
        withdrawal = annual_withdrawal
        balance = (balance - withdrawal) * (1 + annual_return)
        depletion_years.append(retirement_age + year_count)
        balances.append(balance)
        year_count += 1
-/
def rcLoop (annual_withdrawal annual_return : ℚ) (retirement_age : ℤ) :
    ℕ → ℚ → ℕ → RCResult
  | 0, balance, year_count => ⟨[], [], balance, year_count⟩
  | fuel + 1, balance, year_count =>
    if 0 < balance then
      let withdrawal := annual_withdrawal
      let balance' := (balance - withdrawal) * (1 + annual_return)
      let rest := rcLoop annual_withdrawal annual_return retirement_age fuel balance'
        (year_count + 1)
      ⟨(retirement_age + (year_count : ℤ)) :: rest.depletion_years,
       balance' :: rest.balances,
       rest.balance, rest.year_count⟩
    else ⟨[], [], balance, year_count⟩

/-- Top level of the tab-1 simulation:
`annual_withdrawal = future_savings * withdrawal_rate` (line 503),
`balance = future_savings`, `year_count = 0`, then the loop. -/
def rcSimulate (future_savings withdrawal_rate annual_return : ℚ)
    (retirement_age : ℤ) : RCResult :=
  rcLoop (future_savings * withdrawal_rate) annual_return retirement_age 50
    future_savings 0

/-- The per-year withdrawal sequence the tab-1 report layer attaches to a
run (line 583): `[annual_withdrawal] * year_count`. -/
def rc_withdrawals (future_savings withdrawal_rate : ℚ) (res : RCResult) :
    List ℚ :=
  List.replicate res.year_count (future_savings * withdrawal_rate)

/-- The longevity verdict rendered after either loop. -/
inductive Longevity where
  | depleted (years : ℕ) (age : ℤ)
  | sustainable (years : ℕ)
deriving DecidableEq

/-- Longevity assessment of tab 2 (lines 322-328): `[DEPLETED] ... (age
la_retirement_age + year_count)` when the post-loop `balance <= 0`, else
`[SUSTAINABLE]`.  Note that `year_count` here is the value after the
final increment. -/
def longevityAssessment (res : LAResult) (la_retirement_age : ℤ) :
    Longevity :=
  if res.balance ≤ 0 then
    .depleted res.year_count (la_retirement_age + (res.year_count : ℤ))
  else
    .sustainable res.year_count

/-- Longevity assessment of tab 1 (lines 519-525), identical in shape to
the tab-2 one. -/
def rcLongevityAssessment (res : RCResult) (retirement_age : ℤ) :
    Longevity :=
  if res.balance ≤ 0 then
    .depleted res.year_count (retirement_age + (res.year_count : ℤ))
  else
    .sustainable res.year_count

/-- Tab-2 request handling (lines 294-328): the script first checks
`la_retirement_age <= la_current_age` and stops (`st.stop()`) with no
result before any projection arithmetic; otherwise it runs the
simulation and the longevity assessment.  `none` models the stopped
script run. -/
def laCalculate (la_current_age la_retirement_age : ℤ)
    (investment withdrawal_rate la_return : ℚ) :
    Option (LAResult × Longevity) :=
  if la_retirement_age ≤ la_current_age then none
  else
    let res := laSimulate investment withdrawal_rate la_return la_retirement_age
    some (res, longevityAssessment res la_retirement_age)

/-- Tab-1 request handling (lines 489-525), with the same age gate at
lines 489-491. -/
def rcCalculate (current_age retirement_age : ℤ)
    (future_savings withdrawal_rate annual_return : ℚ) :
    Option (RCResult × Longevity) :=
  if retirement_age ≤ current_age then none
  else
    let res := rcSimulate future_savings withdrawal_rate annual_return retirement_age
    some (res, rcLongevityAssessment res retirement_age)

/-- The age at which the recorded balance series first reached `<= 0`,
read off a result's recorded series: the spec's optional `depletionAge`
field (`the age at which balance first reached <= 0; absent if
sustainable`). -/
def firstDepletionAge (res : LAResult) : Option ℤ :=
  ((res.depletion_years.zip res.balances).find? fun p => decide (p.2 ≤ 0)).map
    Prod.fst

/-- The open-horizon loop as the specification words it (spec section
4.3 step 3: `balance = max(0, (balance - withdrawal) * (1 +
annualReturnRate))`): identical to `laLoop` except that the balance
update clamps at zero.  This definition follows the claim's words, for
comparison with the code's `laLoop`. -/
def laLoopClamped (withdrawal_rate la_return : ℚ) (la_retirement_age : ℤ) :
    ℕ → ℚ → ℕ → LAResult
  | 0, balance, year_count => ⟨[], [], [], balance, year_count⟩
  | fuel + 1, balance, year_count =>
    if 0 < balance then
      let withdrawal := balance * withdrawal_rate
      let balance' := max 0 ((balance - withdrawal) * (1 + la_return))
      let rest := laLoopClamped withdrawal_rate la_return la_retirement_age fuel
        balance' (year_count + 1)
      ⟨withdrawal :: rest.withdrawal_amounts,
       (la_retirement_age + (year_count : ℤ)) :: rest.depletion_years,
       balance' :: rest.balances,
       rest.balance, rest.year_count⟩
    else ⟨[], [], [], balance, year_count⟩

/-- Top level of the clamped (specification-worded) living-annuity
simulation. -/
def laSimulateClamped (investment withdrawal_rate la_return : ℚ)
    (la_retirement_age : ℤ) : LAResult :=
  laLoopClamped withdrawal_rate la_return la_retirement_age 50 investment 0

/-! ### Unfolding lemmas for the loops -/

/-- When the loop guard `balance > 0` fails (or the fuel is spent), the
tab-2 loop leaves everything unchanged. -/
lemma laLoop_of_nonpos (wr r : ℚ) (A : ℤ) (fuel : ℕ) (b : ℚ) (yc : ℕ)
    (hb : ¬ 0 < b) :
    laLoop wr r A fuel b yc = ⟨[], [], [], b, yc⟩ := by
  cases fuel <;> simp [laLoop, hb]

/-- One iteration of the tab-2 loop with a positive balance. -/
lemma laLoop_succ_of_pos (wr r : ℚ) (A : ℤ) (fuel : ℕ) (b : ℚ) (yc : ℕ)
    (hb : 0 < b) :
    laLoop wr r A (fuel + 1) b yc =
      ⟨b * wr ::
         (laLoop wr r A fuel ((b - b * wr) * (1 + r)) (yc + 1)).withdrawal_amounts,
       (A + (yc : ℤ)) ::
         (laLoop wr r A fuel ((b - b * wr) * (1 + r)) (yc + 1)).depletion_years,
       (b - b * wr) * (1 + r) ::
         (laLoop wr r A fuel ((b - b * wr) * (1 + r)) (yc + 1)).balances,
       (laLoop wr r A fuel ((b - b * wr) * (1 + r)) (yc + 1)).balance,
       (laLoop wr r A fuel ((b - b * wr) * (1 + r)) (yc + 1)).year_count⟩ := by
  simp [laLoop, hb]

/-- When the loop guard fails (or the fuel is spent), the tab-1 loop
leaves everything unchanged. -/
lemma rcLoop_of_nonpos (w r : ℚ) (A : ℤ) (fuel : ℕ) (b : ℚ) (yc : ℕ)
    (hb : ¬ 0 < b) :
    rcLoop w r A fuel b yc = ⟨[], [], b, yc⟩ := by
  cases fuel <;> simp [rcLoop, hb]

/-- One iteration of the tab-1 loop with a positive balance. -/
lemma rcLoop_succ_of_pos (w r : ℚ) (A : ℤ) (fuel : ℕ) (b : ℚ) (yc : ℕ)
    (hb : 0 < b) :
    rcLoop w r A (fuel + 1) b yc =
      ⟨(A + (yc : ℤ)) ::
         (rcLoop w r A fuel ((b - w) * (1 + r)) (yc + 1)).depletion_years,
       (b - w) * (1 + r) :: (rcLoop w r A fuel ((b - w) * (1 + r)) (yc + 1)).balances,
       (rcLoop w r A fuel ((b - w) * (1 + r)) (yc + 1)).balance,
       (rcLoop w r A fuel ((b - w) * (1 + r)) (yc + 1)).year_count⟩ := by
  simp [rcLoop, hb]

/-- Single-projection step for the final balance of the tab-1 loop; used
to evaluate concrete runs without expanding the whole result. -/
lemma rcLoop_balance_succ (w r : ℚ) (A : ℤ) (fuel : ℕ) (b : ℚ) (yc : ℕ)
    (hb : 0 < b) :
    (rcLoop w r A (fuel + 1) b yc).balance =
      (rcLoop w r A fuel ((b - w) * (1 + r)) (yc + 1)).balance := by
  rw [rcLoop_succ_of_pos w r A fuel b yc hb]

/-- Final balance of the tab-1 loop once the guard fails. -/
lemma rcLoop_balance_of_nonpos (w r : ℚ) (A : ℤ) (fuel : ℕ) (b : ℚ) (yc : ℕ)
    (hb : ¬ 0 < b) :
    (rcLoop w r A fuel b yc).balance = b := by
  rw [rcLoop_of_nonpos w r A fuel b yc hb]

/-- If the tab-1 loop runs at least one iteration, its final balance is
one of the recorded balances (the last one). -/
lemma rcLoop_balance_mem (w r : ℚ) (A : ℤ) :
    ∀ (fuel : ℕ) (b : ℚ) (yc : ℕ), 0 < b →
      (rcLoop w r A (fuel + 1) b yc).balance ∈ (rcLoop w r A (fuel + 1) b yc).balances := by
  intro fuel
  induction fuel with
  | zero =>
    intro b yc hb
    rw [rcLoop_succ_of_pos w r A 0 b yc hb]
    simp [rcLoop]
  | succ f ih =>
    intro b yc hb
    rw [rcLoop_succ_of_pos w r A (f + 1) b yc hb]
    by_cases hb' : 0 < (b - w) * (1 + r)
    · simpa using Or.inr (ih ((b - w) * (1 + r)) (yc + 1) hb')
    · rw [rcLoop_of_nonpos w r A (f + 1) _ (yc + 1) hb']
      simp

/-! ### Invariants of the living-annuity loop -/

/-- Master invariant of the tab-2 loop under the UI's reachable rate
ranges (withdrawal rate strictly between 0 and 1, return above -1):
starting from a positive balance the loop keeps the balance strictly
positive, burns all its fuel (runs the full horizon), records exactly
`fuel` entries in each series, and every recorded balance and
withdrawal is strictly positive. -/
lemma laLoop_pos_inv (wr r : ℚ) (A : ℤ) (h1 : 0 < wr) (h2 : wr < 1)
    (h3 : -1 < r) :
    ∀ (fuel : ℕ) (b : ℚ) (yc : ℕ), 0 < b →
      0 < (laLoop wr r A fuel b yc).balance ∧
      (laLoop wr r A fuel b yc).year_count = yc + fuel ∧
      (laLoop wr r A fuel b yc).withdrawal_amounts.length = fuel ∧
      (laLoop wr r A fuel b yc).balances.length = fuel ∧
      (laLoop wr r A fuel b yc).depletion_years.length = fuel ∧
      (∀ x ∈ (laLoop wr r A fuel b yc).balances, 0 < x) ∧
      (∀ x ∈ (laLoop wr r A fuel b yc).withdrawal_amounts, 0 < x) := by
  intro fuel
  induction fuel with
  | zero =>
    intro b yc hb
    simp [laLoop, hb]
  | succ f ih =>
    intro b yc hb
    have hb' : 0 < (b - b * wr) * (1 + r) := by
      have hfac : 0 < b * (1 - wr) := mul_pos hb (by linarith)
      nlinarith [mul_pos hfac (show (0:ℚ) < 1 + r by linarith)]
    obtain ⟨ihbal, ihyc, ihlw, ihlb, ihld, ihmb, ihmw⟩ :=
      ih ((b - b * wr) * (1 + r)) (yc + 1) hb'
    rw [laLoop_succ_of_pos wr r A f b yc hb]
    refine ⟨ihbal, by simp [ihyc]; omega, by simp [ihlw], by simp [ihlb],
      by simp [ihld], ?_, ?_⟩
    · intro x hx
      rcases List.mem_cons.mp hx with hx | hx
      · exact hx ▸ hb'
      · exact ihmb x hx
    · intro x hx
      rcases List.mem_cons.mp hx with hx | hx
      · exact hx ▸ mul_pos hb h1
      · exact ihmw x hx

/-- Non-negativity invariant of the tab-2 loop under the weaker
assumptions `0 ≤ wr ≤ 1` and `r ≥ -1`: every recorded balance and
withdrawal is non-negative, whatever the starting balance. -/
lemma laLoop_nonneg (wr r : ℚ) (A : ℤ) (h1 : 0 ≤ wr) (h2 : wr ≤ 1)
    (h3 : -1 ≤ r) :
    ∀ (fuel : ℕ) (b : ℚ) (yc : ℕ),
      (∀ x ∈ (laLoop wr r A fuel b yc).balances, 0 ≤ x) ∧
      (∀ x ∈ (laLoop wr r A fuel b yc).withdrawal_amounts, 0 ≤ x) := by
  intro fuel
  induction fuel with
  | zero =>
    intro b yc
    simp [laLoop]
  | succ f ih =>
    intro b yc
    by_cases hb : 0 < b
    · have hb' : 0 ≤ (b - b * wr) * (1 + r) := by
        have hfac : 0 ≤ b * (1 - wr) := mul_nonneg hb.le (by linarith)
        nlinarith [mul_nonneg hfac (show (0:ℚ) ≤ 1 + r by linarith)]
      obtain ⟨ihmb, ihmw⟩ := ih ((b - b * wr) * (1 + r)) (yc + 1)
      rw [laLoop_succ_of_pos wr r A f b yc hb]
      constructor
      · intro x hx
        rcases List.mem_cons.mp hx with hx | hx
        · exact hx ▸ hb'
        · exact ihmb x hx
      · intro x hx
        rcases List.mem_cons.mp hx with hx | hx
        · exact hx ▸ mul_nonneg hb.le h1
        · exact ihmw x hx
    · rw [laLoop_of_nonpos wr r A (f + 1) b yc hb]
      simp

/-! ### The clamped specification loop coincides with the code's loop -/

/-- When the guard fails (or the fuel is spent), the clamped loop also
leaves everything unchanged. -/
lemma laLoopClamped_of_nonpos (wr r : ℚ) (A : ℤ) (fuel : ℕ) (b : ℚ) (yc : ℕ)
    (hb : ¬ 0 < b) :
    laLoopClamped wr r A fuel b yc = ⟨[], [], [], b, yc⟩ := by
  cases fuel <;> simp [laLoopClamped, hb]

/-- One iteration of the clamped loop with a positive balance. -/
lemma laLoopClamped_succ_of_pos (wr r : ℚ) (A : ℤ) (fuel : ℕ) (b : ℚ) (yc : ℕ)
    (hb : 0 < b) :
    laLoopClamped wr r A (fuel + 1) b yc =
      ⟨b * wr ::
         (laLoopClamped wr r A fuel (max 0 ((b - b * wr) * (1 + r)))
           (yc + 1)).withdrawal_amounts,
       (A + (yc : ℤ)) ::
         (laLoopClamped wr r A fuel (max 0 ((b - b * wr) * (1 + r)))
           (yc + 1)).depletion_years,
       max 0 ((b - b * wr) * (1 + r)) ::
         (laLoopClamped wr r A fuel (max 0 ((b - b * wr) * (1 + r))) (yc + 1)).balances,
       (laLoopClamped wr r A fuel (max 0 ((b - b * wr) * (1 + r))) (yc + 1)).balance,
       (laLoopClamped wr r A fuel (max 0 ((b - b * wr) * (1 + r)))
         (yc + 1)).year_count⟩ := by
  simp [laLoopClamped, hb]

/-- Under the reachable input ranges (`0 ≤ wr ≤ 1`, `r ≥ -1`) the clamp
`max 0 (...)` never binds, so the specification-worded clamped loop and
the code's unclamped loop produce identical results. -/
lemma laLoopClamped_eq_laLoop (wr r : ℚ) (A : ℤ) (h1 : 0 ≤ wr) (h2 : wr ≤ 1)
    (h3 : -1 ≤ r) :
    ∀ (fuel : ℕ) (b : ℚ) (yc : ℕ),
      laLoopClamped wr r A fuel b yc = laLoop wr r A fuel b yc := by
  intro fuel
  induction fuel with
  | zero =>
    intro b yc
    simp [laLoop, laLoopClamped]
  | succ f ih =>
    intro b yc
    by_cases hb : 0 < b
    · have hb' : 0 ≤ (b - b * wr) * (1 + r) := by
        have hfac : 0 ≤ b * (1 - wr) := mul_nonneg hb.le (by linarith)
        nlinarith [mul_nonneg hfac (show (0:ℚ) ≤ 1 + r by linarith)]
      rw [laLoopClamped_succ_of_pos wr r A f b yc hb,
        laLoop_succ_of_pos wr r A f b yc hb, max_eq_right hb', ih]
    · rw [laLoopClamped_of_nonpos wr r A (f + 1) b yc hb,
        laLoop_of_nonpos wr r A (f + 1) b yc hb]

/-! ### Invariants of the retirement-calculator loop -/

/-- Every recorded balance of the tab-1 loop except possibly the last is
strictly positive: the loop guard re-tests `balance > 0` before each
further iteration, so only the final recorded balance can be `<= 0`. -/
lemma rcLoop_dropLast_pos (w r : ℚ) (A : ℤ) :
    ∀ (fuel : ℕ) (b : ℚ) (yc : ℕ),
      ∀ x ∈ (rcLoop w r A fuel b yc).balances.dropLast, 0 < x := by
  intro fuel
  induction fuel with
  | zero =>
    intro b yc
    simp [rcLoop]
  | succ f ih =>
    intro b yc
    by_cases hb : 0 < b
    · rw [rcLoop_succ_of_pos w r A f b yc hb]
      dsimp only
      by_cases hb' : 0 < (b - w) * (1 + r)
      · cases hL : (rcLoop w r A f ((b - w) * (1 + r)) (yc + 1)).balances with
        | nil =>
          simp
        | cons y ys =>
          intro x hx
          simp only [List.dropLast_cons₂, List.mem_cons] at hx
          rcases hx with hx | hx
          · exact hx ▸ hb'
          · have h2 := ih ((b - w) * (1 + r)) (yc + 1)
            rw [hL] at h2
            exact h2 x hx
      · rw [rcLoop_of_nonpos w r A f _ (yc + 1) hb']
        simp
    · rw [rcLoop_of_nonpos w r A (f + 1) b yc hb]
      simp

/-! ### Horizon cap -/

/-- The tab-2 loop records at most `fuel` entries in each series. -/
lemma laLoop_length_le (wr r : ℚ) (A : ℤ) :
    ∀ (fuel : ℕ) (b : ℚ) (yc : ℕ),
      (laLoop wr r A fuel b yc).depletion_years.length ≤ fuel ∧
      (laLoop wr r A fuel b yc).balances.length ≤ fuel ∧
      (laLoop wr r A fuel b yc).withdrawal_amounts.length ≤ fuel := by
  intro fuel
  induction fuel with
  | zero =>
    intro b yc
    simp [laLoop]
  | succ f ih =>
    intro b yc
    by_cases hb : 0 < b
    · obtain ⟨ih1, ih2, ih3⟩ := ih ((b - b * wr) * (1 + r)) (yc + 1)
      rw [laLoop_succ_of_pos wr r A f b yc hb]
      simp only [List.length_cons]
      omega
    · rw [laLoop_of_nonpos wr r A (f + 1) b yc hb]
      simp

/-- The tab-1 loop records at most `fuel` entries in each series. -/
lemma rcLoop_length_le (w r : ℚ) (A : ℤ) :
    ∀ (fuel : ℕ) (b : ℚ) (yc : ℕ),
      (rcLoop w r A fuel b yc).depletion_years.length ≤ fuel ∧
      (rcLoop w r A fuel b yc).balances.length ≤ fuel := by
  intro fuel
  induction fuel with
  | zero =>
    intro b yc
    simp [rcLoop]
  | succ f ih =>
    intro b yc
    by_cases hb : 0 < b
    · obtain ⟨ih1, ih2⟩ := ih ((b - w) * (1 + r)) (yc + 1)
      rw [rcLoop_succ_of_pos w r A f b yc hb]
      simp only [List.length_cons]
      omega
    · rw [rcLoop_of_nonpos w r A (f + 1) b yc hb]
      simp

/-! ### Strict decrease of the tab-2 balance under net-loss rates -/

/-- When the per-year factor `(1 - wr) * (1 + r)` is below 1, the tab-2
balance series strictly decreases from the initial balance on. -/
lemma laLoop_chain_lt (wr r : ℚ) (A : ℤ) (h1 : 0 < wr) (h2 : wr < 1)
    (h3 : -1 < r) (hf : (1 - wr) * (1 + r) < 1) :
    ∀ (fuel : ℕ) (b : ℚ) (yc : ℕ), 0 < b →
      List.Chain' (fun x y => y < x) (b :: (laLoop wr r A fuel b yc).balances) := by
  intro fuel
  induction fuel with
  | zero =>
    intro b yc hb
    simp [laLoop]
  | succ f ih =>
    intro b yc hb
    have hb' : 0 < (b - b * wr) * (1 + r) := by
      have hfac : 0 < b * (1 - wr) := mul_pos hb (by linarith)
      nlinarith [mul_pos hfac (show (0:ℚ) < 1 + r by linarith)]
    have hlt : (b - b * wr) * (1 + r) < b := by
      nlinarith [mul_lt_of_lt_one_right hb hf]
    rw [laLoop_succ_of_pos wr r A f b yc hb]
    exact List.chain'_cons.mpr ⟨hlt, ih ((b - b * wr) * (1 + r)) (yc + 1) hb'⟩

/-- If every recorded balance is positive, no depletion age can be read
off the series. -/
lemma firstDepletionAge_eq_none (res : LAResult)
    (h : ∀ x ∈ res.balances, 0 < x) : firstDepletionAge res = none := by
  unfold firstDepletionAge
  rw [Option.map_eq_none', List.find?_eq_none]
  rintro ⟨a, x⟩ hp
  have hx : x ∈ res.balances := (List.of_mem_zip hp).2
  simp only [decide_eq_true_eq]
  exact not_le.mpr (h x hx)

/-! ### A concrete depleting run of the retirement-calculator loop

With `future_savings = 1,000,000`, `withdrawal_rate = 10%` and
`annual_return = 1%` (all inside the tab-1 slider ranges) the fixed
yearly withdrawal of 100,000 exhausts the pot in the 11th simulated
year, and the loop records the negative final balance as computed,
without any clamping. -/

lemma rcExample_balance_neg :
    (rcSimulate 1000000 (1/10) (1/100) 65).balance < 0 := by
  have hstart : (rcSimulate 1000000 (1/10) (1/100) 65).balance
      = (rcLoop 100000 (1/100) 65 50 1000000 0).balance := by
    unfold rcSimulate
    norm_num
  rw [hstart, show (50:ℕ) = 49 + 1 from rfl,
    rcLoop_balance_succ 100000 (1/100) 65 49,
    show (49:ℕ) = 48 + 1 from rfl,
    rcLoop_balance_succ 100000 (1/100) 65 48,
    show (48:ℕ) = 47 + 1 from rfl,
    rcLoop_balance_succ 100000 (1/100) 65 47,
    show (47:ℕ) = 46 + 1 from rfl,
    rcLoop_balance_succ 100000 (1/100) 65 46,
    show (46:ℕ) = 45 + 1 from rfl,
    rcLoop_balance_succ 100000 (1/100) 65 45,
    show (45:ℕ) = 44 + 1 from rfl,
    rcLoop_balance_succ 100000 (1/100) 65 44,
    show (44:ℕ) = 43 + 1 from rfl,
    rcLoop_balance_succ 100000 (1/100) 65 43,
    show (43:ℕ) = 42 + 1 from rfl,
    rcLoop_balance_succ 100000 (1/100) 65 42,
    show (42:ℕ) = 41 + 1 from rfl,
    rcLoop_balance_succ 100000 (1/100) 65 41,
    show (41:ℕ) = 40 + 1 from rfl,
    rcLoop_balance_succ 100000 (1/100) 65 40,
    show (40:ℕ) = 39 + 1 from rfl,
    rcLoop_balance_succ 100000 (1/100) 65 39,
    rcLoop_balance_of_nonpos 100000 (1/100) 65 39]
  all_goals norm_num

/-- The negative final balance of the concrete run above is itself a
recorded entry of the `balances` series. -/
lemma rcExample_balance_mem :
    (rcSimulate 1000000 (1/10) (1/100) 65).balance ∈
      (rcSimulate 1000000 (1/10) (1/100) 65).balances := by
  show (rcLoop (1000000 * (1/10)) (1/100) 65 (49 + 1) 1000000 0).balance ∈
      (rcLoop (1000000 * (1/10)) (1/100) 65 (49 + 1) 1000000 0).balances
  exact rcLoop_balance_mem _ _ _ 49 1000000 0 (by norm_num)

/-! ### Claims -/

/-- C1 (counterexample): the claimed invariant `balances[i] >= 0` fails
on the code.  With the in-range tab-1 inputs `future_savings =
1,000,000`, `withdrawal_rate = 10%`, `annual_return = 1%`, the loop
records a strictly negative balance (the unclamped final balance of the
depleting year). -/
theorem c1_counterexample :
    ∃ x ∈ (rcSimulate 1000000 (1/10) (1/100) 65).balances, x < 0 :=
  ⟨(rcSimulate 1000000 (1/10) (1/100) 65).balance, rcExample_balance_mem,
    rcExample_balance_neg⟩

/-- C1 (amended): all recorded withdrawals are non-negative and, in the
living-annuity loop, all recorded balances are non-negative (for
withdrawal rates in [0,1] and returns >= -1); in the fixed-withdrawal
tab-1 loop every recorded balance except possibly the last is strictly
positive, and only that final entry can be negative (there is no
clamping in the code). -/
theorem c1_amended (inv wr r fs wr2 r2 : ℚ) (A A2 : ℤ)
    (h1 : 0 ≤ wr) (h2 : wr ≤ 1) (h3 : -1 ≤ r) (h4 : 0 ≤ fs) (h5 : 0 ≤ wr2) :
    (∀ x ∈ (laSimulate inv wr r A).withdrawal_amounts, 0 ≤ x) ∧
    (∀ x ∈ (laSimulate inv wr r A).balances, 0 ≤ x) ∧
    (∀ x ∈ (rcSimulate fs wr2 r2 A2).balances.dropLast, 0 < x) ∧
    (∀ x ∈ rc_withdrawals fs wr2 (rcSimulate fs wr2 r2 A2), 0 ≤ x) := by
  obtain ⟨hmb, hmw⟩ := laLoop_nonneg wr r A h1 h2 h3 50 inv 0
  refine ⟨hmw, hmb, rcLoop_dropLast_pos (fs * wr2) r2 A2 50 fs 0, ?_⟩
  intro x hx
  rw [List.eq_of_mem_replicate hx]
  exact mul_nonneg h4 h5

/-- Witness for C1 (amended) at concrete inputs. -/
theorem c1_amended_witness :
    (0:ℚ) ≤ 1/4 ∧ (1/4:ℚ) ≤ 1 ∧ (-1:ℚ) ≤ 2 ∧ (0:ℚ) ≤ 3 ∧ (0:ℚ) ≤ 0 ∧
    ((∀ x ∈ (laSimulate 7 (1/4) 2 64).withdrawal_amounts, 0 ≤ x) ∧
     (∀ x ∈ (laSimulate 7 (1/4) 2 64).balances, 0 ≤ x) ∧
     (∀ x ∈ (rcSimulate 3 0 5 63).balances.dropLast, 0 < x) ∧
     (∀ x ∈ rc_withdrawals 3 0 (rcSimulate 3 0 5 63), 0 ≤ x)) :=
  ⟨by norm_num, by norm_num, by norm_num, by norm_num, le_refl 0,
   c1_amended 7 (1/4) 2 3 0 5 64 63 (by norm_num) (by norm_num) (by norm_num)
     (by norm_num) (le_refl 0)⟩

/-- C2 (counterexample): with `principal = 1,000,000`,
`withdrawalRate = 0.10`, `annualReturnRate = 0.03` the rate condition of
the claim holds (`0.03 < 0.10 / 0.90`), yet the simulator never reports
depletion: the verdict is sustainable after the full 50 years and no
depletion age can be read off the series. -/
theorem c2_counterexample :
    (3/100 : ℚ) < (1/10) / (1 - 1/10) ∧
    longevityAssessment (laSimulate 1000000 (1/10) (3/100) 65) 65 =
      Longevity.sustainable 50 ∧
    firstDepletionAge (laSimulate 1000000 (1/10) (3/100) 65) = none := by
  obtain ⟨hbal, hyc, _, _, _, hmb, _⟩ :=
    laLoop_pos_inv (1/10) (3/100) 65 (by norm_num) (by norm_num) (by norm_num)
      50 1000000 0 (by norm_num)
  have hres : laSimulate 1000000 (1/10) (3/100) 65 =
      laLoop (1/10) (3/100) 65 50 1000000 0 := rfl
  refine ⟨by norm_num, ?_, ?_⟩
  · rw [hres]
    unfold longevityAssessment
    rw [if_neg (not_le.mpr hbal), hyc]
  · rw [hres]
    exact firstDepletionAge_eq_none _ hmb

/-- C2 (amended): under the claim's rate condition the balance does
strictly decrease every year, but it never reaches zero: the simulator
runs the full 50 years, the verdict is sustainable, and no depletion
age is ever set (the percentage-of-balance update is multiplicative and
stays positive). -/
theorem c2_amended (inv wr r : ℚ) (A : ℤ) (h0 : 0 < inv) (h1 : 0 < wr)
    (h2 : wr < 1) (h3 : -1 < r) (h4 : r < wr / (1 - wr)) :
    List.Chain' (fun x y => y < x) (inv :: (laSimulate inv wr r A).balances) ∧
    longevityAssessment (laSimulate inv wr r A) A = Longevity.sustainable 50 ∧
    firstDepletionAge (laSimulate inv wr r A) = none := by
  have hf : (1 - wr) * (1 + r) < 1 := by
    have h5 : r * (1 - wr) < wr := (lt_div_iff₀ (by linarith)).mp h4
    nlinarith
  have hres : laSimulate inv wr r A = laLoop wr r A 50 inv 0 := rfl
  obtain ⟨hbal, hyc, _, _, _, hmb, _⟩ := laLoop_pos_inv wr r A h1 h2 h3 50 inv 0 h0
  refine ⟨?_, ?_, ?_⟩
  · rw [hres]
    exact laLoop_chain_lt wr r A h1 h2 h3 hf 50 inv 0 h0
  · rw [hres]
    unfold longevityAssessment
    rw [if_neg (not_le.mpr hbal), hyc]
  · rw [hres]
    exact firstDepletionAge_eq_none _ hmb

/-- Witness for C2 (amended) at concrete inputs. -/
theorem c2_amended_witness :
    (0:ℚ) < 1 ∧ (0:ℚ) < 1/2 ∧ (1/2:ℚ) < 1 ∧ (-1:ℚ) < 0 ∧
    (0:ℚ) < (1/2) / (1 - 1/2) ∧
    (List.Chain' (fun x y => y < x) (1 :: (laSimulate 1 (1/2) 0 66).balances) ∧
     longevityAssessment (laSimulate 1 (1/2) 0 66) 66 = Longevity.sustainable 50 ∧
     firstDepletionAge (laSimulate 1 (1/2) 0 66) = none) :=
  ⟨by norm_num, by norm_num, by norm_num, by norm_num, by norm_num,
   c2_amended 1 (1/2) 0 66 (by norm_num) (by norm_num) (by norm_num)
     (by norm_num) (by norm_num)⟩

/-- C3 (counterexample): the code's per-year update is not
`max(0, (balance - withdrawal) * (1 + annualReturnRate))`: in the
fixed-withdrawal loop cited by the claim, a negative balance is both
computed and recorded (the claimed clamped update would have recorded
`max 0 (...) = 0` instead), so a negative depletion balance is
recorded. -/
theorem c3_counterexample :
    (rcSimulate 1000000 (1/10) (1/100) 65).balance ∈
      (rcSimulate 1000000 (1/10) (1/100) 65).balances ∧
    (rcSimulate 1000000 (1/10) (1/100) 65).balance < 0 ∧
    max 0 (rcSimulate 1000000 (1/10) (1/100) 65).balance = 0 :=
  ⟨rcExample_balance_mem, rcExample_balance_neg,
    max_eq_left rcExample_balance_neg.le⟩

/-- C3 (amended): the code's update has no `max(0, ...)` clamp and the
depletion comparison is the `balance > 0` loop guard; nevertheless, for
the percentage-of-balance simulator with withdrawal rate in [0,1] and
return >= -1 the unclamped loop computes exactly the result of the
clamped specification loop, and no negative balance is recorded there;
only the fixed-withdrawal tab-1 loop can record a negative (final)
balance. -/
theorem c3_amended (inv wr r : ℚ) (A : ℤ) (h1 : 0 ≤ wr) (h2 : wr ≤ 1)
    (h3 : -1 ≤ r) :
    laSimulateClamped inv wr r A = laSimulate inv wr r A ∧
    (∀ x ∈ (laSimulate inv wr r A).balances, 0 ≤ x) := by
  obtain ⟨hmb, _⟩ := laLoop_nonneg wr r A h1 h2 h3 50 inv 0
  exact ⟨laLoopClamped_eq_laLoop wr r A h1 h2 h3 50 inv 0, hmb⟩

/-- Witness for C3 (amended) at concrete inputs. -/
theorem c3_amended_witness :
    (0:ℚ) ≤ 1/5 ∧ (1/5:ℚ) ≤ 1 ∧ (-1:ℚ) ≤ 3 ∧
    (laSimulateClamped 9 (1/5) 3 62 = laSimulate 9 (1/5) 3 62 ∧
     (∀ x ∈ (laSimulate 9 (1/5) 3 62).balances, 0 ≤ x)) :=
  ⟨by norm_num, by norm_num, by norm_num,
   c3_amended 9 (1/5) 3 62 (by norm_num) (by norm_num) (by norm_num)⟩

/-- C4 (counterexample): with `investment = 0` (the tab-2 number input
has no lower bound) the loop records nothing, so no depletion age can be
read off the series (`depletionAge` unset), yet the verdict is
`[DEPLETED]` because the post-loop balance `0 <= 0` — refuting
`Sustainable iff depletionAge unset`. -/
theorem c4_counterexample :
    longevityAssessment (laSimulate 0 (1/25) (7/100) 65) 65 =
      Longevity.depleted 0 65 ∧
    firstDepletionAge (laSimulate 0 (1/25) (7/100) 65) = none := by
  have hres : laSimulate 0 (1/25) (7/100) 65 = ⟨[], [], [], 0, 0⟩ := by
    show laLoop (1/25) (7/100) 65 50 0 0 = _
    exact laLoop_of_nonpos _ _ _ _ _ _ (by norm_num)
  rw [hres]
  constructor
  · simp [longevityAssessment]
  · rfl

/-- C4 (amended): the verdict is `Sustainable` iff the post-loop balance
is strictly positive; when `investment <= 0` the verdict is `Depleted`
with reported age `retirementAge + 0` even though the series is empty
and no depletion age was ever recorded. -/
theorem c4_amended (inv wr r : ℚ) (A : ℤ) :
    (longevityAssessment (laSimulate inv wr r A) A =
        Longevity.sustainable (laSimulate inv wr r A).year_count ↔
      0 < (laSimulate inv wr r A).balance) ∧
    (inv ≤ 0 →
      (laSimulate inv wr r A).balances = [] ∧
      firstDepletionAge (laSimulate inv wr r A) = none ∧
      longevityAssessment (laSimulate inv wr r A) A = Longevity.depleted 0 A) := by
  constructor
  · by_cases h : (laSimulate inv wr r A).balance ≤ 0
    · simp [longevityAssessment, h, not_lt.mpr h]
    · simp [longevityAssessment, h, lt_of_not_le h]
  · intro h
    have hres : laSimulate inv wr r A = ⟨[], [], [], inv, 0⟩ := by
      show laLoop wr r A 50 inv 0 = _
      exact laLoop_of_nonpos _ _ _ _ _ _ (not_lt.mpr h)
    rw [hres]
    refine ⟨rfl, rfl, ?_⟩
    simp [longevityAssessment, h]

/-- Witness for C4 (amended): the depleted-with-empty-series branch at a
concrete non-positive investment. -/
theorem c4_amended_witness :
    (laSimulate 0 (1/2) 0 67).balances = [] ∧
    firstDepletionAge (laSimulate 0 (1/2) 0 67) = none ∧
    longevityAssessment (laSimulate 0 (1/2) 0 67) 67 = Longevity.depleted 0 67 :=
  (c4_amended 0 (1/2) 0 67).2 (le_refl 0)

/-- C5: concrete scenario 1 of the spec.  With `principal = 5,000,000`,
`withdrawalRate = 0.04`, `annualReturnRate = 0.07`, the first-year
withdrawal is exactly 200,000 and the first recorded balance is exactly
`(5,000,000 - 200,000) * 1.07 = 5,136,000`. -/
theorem c5_scenario1 :
    (laSimulate 5000000 (1/25) (7/100) 65).withdrawal_amounts.head? =
      some 200000 ∧
    (laSimulate 5000000 (1/25) (7/100) 65).balances.head? = some 5136000 := by
  have h50 : laSimulate 5000000 (1/25) (7/100) 65 =
      laLoop (1/25) (7/100) 65 (49 + 1) 5000000 0 := rfl
  rw [h50, laLoop_succ_of_pos (1/25) (7/100) 65 49 5000000 0 (by norm_num)]
  constructor
  · simp only [List.head?_cons]
    norm_num
  · simp only [List.head?_cons]
    norm_num

/-- C6: the loops are total functions of their inputs (structural
recursion on the 50-year fuel), and every recorded series of both
simulations has length at most 50, for all inputs. -/
theorem c6_horizon_cap (inv wr r fs wr2 r2 : ℚ) (A A2 : ℤ) :
    (laSimulate inv wr r A).depletion_years.length ≤ 50 ∧
    (laSimulate inv wr r A).balances.length ≤ 50 ∧
    (laSimulate inv wr r A).withdrawal_amounts.length ≤ 50 ∧
    (rcSimulate fs wr2 r2 A2).depletion_years.length ≤ 50 ∧
    (rcSimulate fs wr2 r2 A2).balances.length ≤ 50 := by
  obtain ⟨l1, l2, l3⟩ := laLoop_length_le wr r A 50 inv 0
  obtain ⟨m1, m2⟩ := rcLoop_length_le (fs * wr2) r2 A2 50 fs 0
  exact ⟨l1, l2, l3, m1, m2⟩

/-- C7 (counterexample): with `investment = 100`, `withdrawalRate = 4%`,
`annualReturn = 7%`, the very first computed withdrawal is 4 (< the
claimed floor of 10), yet the simulator does not stop early: it records
the full 50 withdrawals. -/
theorem c7_counterexample :
    (laSimulate 100 (1/25) (7/100) 65).withdrawal_amounts.head? = some 4 ∧
    (4:ℚ) < 10 ∧
    (laSimulate 100 (1/25) (7/100) 65).withdrawal_amounts.length = 50 := by
  obtain ⟨_, _, hlw, _, _, _, _⟩ :=
    laLoop_pos_inv (1/25) (7/100) 65 (by norm_num) (by norm_num) (by norm_num)
      50 100 0 (by norm_num)
  refine ⟨?_, by norm_num, hlw⟩
  have h50 : laSimulate 100 (1/25) (7/100) 65 =
      laLoop (1/25) (7/100) 65 (49 + 1) 100 0 := rfl
  rw [h50, laLoop_succ_of_pos (1/25) (7/100) 65 49 100 0 (by norm_num)]
  simp only [List.head?_cons]
  norm_num

/-- C7 (amended): the code has no minimum-withdrawal floor.  The loop
stops only when the balance is not positive or the 50-year cap is
reached; with a positive investment and rates in the UI ranges it
always emits all 50 withdrawals, however small they become. -/
theorem c7_amended (inv wr r : ℚ) (A : ℤ) (h0 : 0 < inv) (h1 : 0 < wr)
    (h2 : wr < 1) (h3 : -1 < r) :
    (laSimulate inv wr r A).withdrawal_amounts.length = 50 ∧
    (laSimulate inv wr r A).year_count = 50 := by
  obtain ⟨_, hyc, hlw, _, _, _, _⟩ := laLoop_pos_inv wr r A h1 h2 h3 50 inv 0 h0
  exact ⟨hlw, by simpa using hyc⟩

/-- Witness for C7 (amended) at concrete inputs. -/
theorem c7_amended_witness :
    (0:ℚ) < 2 ∧ (0:ℚ) < 1/2 ∧ (1/2:ℚ) < 1 ∧ (-1:ℚ) < 1 ∧
    ((laSimulate 2 (1/2) 1 65).withdrawal_amounts.length = 50 ∧
     (laSimulate 2 (1/2) 1 65).year_count = 50) :=
  ⟨by norm_num, by norm_num, by norm_num, by norm_num,
   c7_amended 2 (1/2) 1 65 (by norm_num) (by norm_num) (by norm_num)
     (by norm_num)⟩

/-- C8: whenever `retirement_age <= current_age`, both tabs stop before
any projection arithmetic and produce no result at all (no partial
series); the check is part of the calculation path itself (lines
294-296 and 489-491). -/
theorem c8_age_validation (current_age retirement_age : ℤ)
    (inv wr r fs wr2 r2 : ℚ) (h : retirement_age ≤ current_age) :
    laCalculate current_age retirement_age inv wr r = none ∧
    rcCalculate current_age retirement_age fs wr2 r2 = none := by
  constructor
  · simp [laCalculate, h]
  · simp [rcCalculate, h]

/-- Witness for C8 at concrete ages (retirement age 60, current age 65). -/
theorem c8_age_validation_witness :
    (60:ℤ) ≤ 65 ∧
    (laCalculate 65 60 1000000 (1/25) (7/100) = none ∧
     rcCalculate 65 60 2000000 (1/20) (1/10) = none) :=
  ⟨by norm_num,
   c8_age_validation 65 60 1000000 (1/25) (7/100) 2000000 (1/20) (1/10)
     (by norm_num)⟩

/-- C9: both simulations and their verdicts are deterministic pure
functions of the inputs: two runs on identical parameters yield
identical series and identical verdicts. -/
theorem c9_deterministic (inv1 inv2 wr1 wr2 r1 r2 fs1 fs2 v1 v2 ar1 ar2 : ℚ)
    (A1 A2 B1 B2 : ℤ) (e1 : inv1 = inv2) (e2 : wr1 = wr2) (e3 : r1 = r2)
    (e4 : A1 = A2) (e5 : fs1 = fs2) (e6 : v1 = v2) (e7 : ar1 = ar2)
    (e8 : B1 = B2) :
    laSimulate inv1 wr1 r1 A1 = laSimulate inv2 wr2 r2 A2 ∧
    longevityAssessment (laSimulate inv1 wr1 r1 A1) A1 =
      longevityAssessment (laSimulate inv2 wr2 r2 A2) A2 ∧
    rcSimulate fs1 v1 ar1 B1 = rcSimulate fs2 v2 ar2 B2 ∧
    rcLongevityAssessment (rcSimulate fs1 v1 ar1 B1) B1 =
      rcLongevityAssessment (rcSimulate fs2 v2 ar2 B2) B2 := by
  subst e1 e2 e3 e4 e5 e6 e7 e8
  exact ⟨rfl, rfl, rfl, rfl⟩

/-- Witness for C9 at concrete inputs. -/
theorem c9_deterministic_witness :
    laSimulate 11 (1/25) (7/100) 65 = laSimulate 11 (1/25) (7/100) 65 ∧
    longevityAssessment (laSimulate 11 (1/25) (7/100) 65) 65 =
      longevityAssessment (laSimulate 11 (1/25) (7/100) 65) 65 ∧
    rcSimulate 13 (1/20) (1/10) 66 = rcSimulate 13 (1/20) (1/10) 66 ∧
    rcLongevityAssessment (rcSimulate 13 (1/20) (1/10) 66) 66 =
      rcLongevityAssessment (rcSimulate 13 (1/20) (1/10) 66) 66 :=
  c9_deterministic 11 11 (1/25) (1/25) (7/100) (7/100) 13 13 (1/20) (1/20)
    (1/10) (1/10) 65 65 66 66 rfl rfl rfl rfl rfl rfl rfl rfl

/-- C10: in the percentage-of-balance living-annuity simulation, for
every positive investment, withdrawal rate strictly between 0 and 1 and
return above -1, every recorded balance stays strictly positive, the
loop runs the full 50 iterations, the post-loop balance is positive, and
the verdict is always `[SUSTAINABLE]` — the `[DEPLETED]` branch is
unreachable in this mode. -/
theorem c10_sustainable_only (inv wr r : ℚ) (A : ℤ) (h0 : 0 < inv)
    (h1 : 0 < wr) (h2 : wr < 1) (h3 : -1 < r) :
    (∀ b ∈ (laSimulate inv wr r A).balances, 0 < b) ∧
    (laSimulate inv wr r A).year_count = 50 ∧
    0 < (laSimulate inv wr r A).balance ∧
    longevityAssessment (laSimulate inv wr r A) A = Longevity.sustainable 50 := by
  obtain ⟨hbal, hyc, _, _, _, hmb, _⟩ := laLoop_pos_inv wr r A h1 h2 h3 50 inv 0 h0
  have hres : laSimulate inv wr r A = laLoop wr r A 50 inv 0 := rfl
  rw [hres]
  refine ⟨hmb, by simpa using hyc, hbal, ?_⟩
  unfold longevityAssessment
  rw [if_neg (not_le.mpr hbal), hyc]

/-- Witness for C10 at concrete inputs. -/
theorem c10_sustainable_only_witness :
    (0:ℚ) < 3 ∧ (0:ℚ) < 1/3 ∧ (1/3:ℚ) < 1 ∧ (-1:ℚ) < 1/2 ∧
    ((∀ b ∈ (laSimulate 3 (1/3) (1/2) 70).balances, 0 < b) ∧
     (laSimulate 3 (1/3) (1/2) 70).year_count = 50 ∧
     0 < (laSimulate 3 (1/3) (1/2) 70).balance ∧
     longevityAssessment (laSimulate 3 (1/3) (1/2) 70) 70 =
       Longevity.sustainable 50) :=
  ⟨by norm_num, by norm_num, by norm_num, by norm_num,
   c10_sustainable_only 3 (1/3) (1/2) 70 (by norm_num) (by norm_num)
     (by norm_num) (by norm_num)⟩
